import Mathlib

/-!
Verification development for the `vk_denoise_nrd` sample
(real-time path tracer feeding the NRD denoiser).

Shallow embedding of:
  * shader math from `src/RealtimeDenoiser/shaders/`
    (`nrd.rgen`, `pathtrace.rchit`, `pathtrace.rmiss`, `nrd.rmiss`,
     `ray_common.glsl` and the compositing compute shader), with
    GLSL `float` modelled as `ℚ` (exact-real semantics);
  * host-side resource / dispatch translation from `NRDWrapper`
    (`src/unnamed/part_001`), with machine integers modelled as `ℕ`
    together with explicit width bounds where they matter.
-/

namespace VkDenoiseNrd

/-- GLSL `vec3`, modelled with exact rational components. -/
@[ext]
structure Vec3 where
  x : ℚ
  y : ℚ
  z : ℚ
deriving DecidableEq, Repr

namespace Vec3

def add (a b : Vec3) : Vec3 := ⟨a.x + b.x, a.y + b.y, a.z + b.z⟩

def sub (a b : Vec3) : Vec3 := ⟨a.x - b.x, a.y - b.y, a.z - b.z⟩

def smul (s : ℚ) (a : Vec3) : Vec3 := ⟨s * a.x, s * a.y, s * a.z⟩

/-- Component-wise product (GLSL `vec3 * vec3`). -/
def mul (a b : Vec3) : Vec3 := ⟨a.x * b.x, a.y * b.y, a.z * b.z⟩

/-- Component-wise quotient (GLSL `vec3 / vec3`). -/
def div (a b : Vec3) : Vec3 := ⟨a.x / b.x, a.y / b.y, a.z / b.z⟩

/-- GLSL `dot`. -/
def dot (a b : Vec3) : ℚ := a.x * b.x + a.y * b.y + a.z * b.z

def zero : Vec3 := ⟨0, 0, 0⟩

def one : Vec3 := ⟨1, 1, 1⟩

/-- Add the same scalar to every component (GLSL `vec3 + float`). -/
def addScalar (a : Vec3) (s : ℚ) : Vec3 := ⟨a.x + s, a.y + s, a.z + s⟩

/-- Scale every component (GLSL `vec3 * float`, scalar on the right). -/
def mulScalar (a : Vec3) (s : ℚ) : Vec3 := ⟨a.x * s, a.y * s, a.z * s⟩

end Vec3

/-!
## `powerHeuristic` — `pathtrace.rmiss` lines 32–36

```glsl
float powerHeuristic(float a, float b)
{
  const float t = a * a;
  return t / (b * b + t);
}
```
-/

def powerHeuristic (a b : ℚ) : ℚ :=
  let t := a * a
  t / (b * b + t)

/-!
## Demodulation / remodulation — `nrd.rgen` lines 499 and 601,
compositing shader (`ray_common.glsl` part) lines 179–184

Ray generation:
```glsl
diffuseAccum /= (pbrMat.baseColor * 0.99 + 0.01);
specularAccum /= (Fenv * 0.99 + 0.01);
```
Compositor:
```glsl
vec3 diffDemodulate = baseColor * 0.99 + 0.01;
vec3 specDemodulate = Fenv * 0.99 + 0.01;
R += indirectDiff * diffDemodulate;
R += indirectSpec * specDemodulate;
```
-/

/-- The affine demodulation factor `c * 0.99 + 0.01`, applied
component-wise to the base color (diffuse) or to the environment
term `Fenv` (specular).  This very expression appears in both the
ray-generation shader and the compositor. -/
def demodFactor (c : Vec3) : Vec3 :=
  (c.mulScalar (99/100)).addScalar (1/100)

/-- Demodulation as performed in `nrd.rgen` (STEP 3.4 / STEP 4.4):
divide the accumulated radiance by the factor. -/
def demodulate (accum params : Vec3) : Vec3 :=
  accum.div (demodFactor params)

/-- Remodulation as performed by the compositing shader:
multiply the denoised radiance by the (identically computed) factor. -/
def remodulate (denoised params : Vec3) : Vec3 :=
  denoised.mul (demodFactor params)

/-!
## 3×3 matrices and `buildMirrorMatrix` — `ray_common.glsl` lines 54–59

GLSL `mat3` is stored by columns and the `mat3(c0, c1, c2)` constructor
takes columns; `M * v` is `v.x * c0 + v.y * c1 + v.z * c2` and `A * B`
has columns `A * (columns of B)`.
-/

/-- GLSL `mat3`, stored as its three columns. -/
@[ext]
structure Mat3 where
  c0 : Vec3
  c1 : Vec3
  c2 : Vec3
deriving DecidableEq, Repr

namespace Mat3

/-- GLSL matrix–vector product `m * v`. -/
def mulVec (m : Mat3) (v : Vec3) : Vec3 :=
  ((Vec3.smul v.x m.c0).add (Vec3.smul v.y m.c1)).add (Vec3.smul v.z m.c2)

/-- GLSL matrix–matrix product `a * b`. -/
def mul (a b : Mat3) : Mat3 :=
  ⟨a.mulVec b.c0, a.mulVec b.c1, a.mulVec b.c2⟩

def transpose (m : Mat3) : Mat3 :=
  ⟨⟨m.c0.x, m.c1.x, m.c2.x⟩, ⟨m.c0.y, m.c1.y, m.c2.y⟩, ⟨m.c0.z, m.c1.z, m.c2.z⟩⟩

/-- GLSL `mat3(s)`: the diagonal matrix with `s` on the diagonal;
`mat3(1.0)` is the identity used to initialise `psrMirror`
(`nrd.rgen` line 282). -/
def diagonal (s : ℚ) : Mat3 :=
  ⟨⟨s, 0, 0⟩, ⟨0, s, 0⟩, ⟨0, 0, s⟩⟩

def identity : Mat3 := diagonal 1

end Mat3

/-- GLSL `vec3(s)`: the splat constructor. -/
def vec3splat (s : ℚ) : Vec3 := ⟨s, s, s⟩

/-- `ray_common.glsl` lines 54–59:

```glsl
mat3 buildMirrorMatrix(vec3 normal)
{
  return mat3(-2.0 * (vec3(normal.x) * normal) + vec3(1.0, 0.0, 0.0),
              -2.0 * (vec3(normal.y) * normal) + vec3(0.0, 1.0, 0.0),
              -2.0 * (vec3(normal.z) * normal) + vec3(0.0, 0.0, 1.0));
}
```
-/
def buildMirrorMatrix (normal : Vec3) : Mat3 :=
  ⟨(Vec3.smul (-2) ((vec3splat normal.x).mul normal)).add ⟨1, 0, 0⟩,
   (Vec3.smul (-2) ((vec3splat normal.y).mul normal)).add ⟨0, 1, 0⟩,
   (Vec3.smul (-2) ((vec3splat normal.z).mul normal)).add ⟨0, 0, 1⟩⟩

/-- The mathematical Householder form `I - 2 n nᵀ`, written from the
claim's words for comparison with `buildMirrorMatrix` (`n nᵀ` has
columns `n_j • n`). -/
def householderMatrix (n : Vec3) : Mat3 :=
  ⟨⟨1 - 2 * n.x * n.x, -(2 * n.x * n.y), -(2 * n.x * n.z)⟩,
   ⟨-(2 * n.y * n.x), 1 - 2 * n.y * n.y, -(2 * n.y * n.z)⟩,
   ⟨-(2 * n.z * n.x), -(2 * n.z * n.y), 1 - 2 * n.z * n.z⟩⟩

/-- The running PSR mirror product: `psrMirror` starts as `mat3(1.0)`
(`nrd.rgen` line 282) and each mirror hit performs
`psrMirror *= buildMirrorMatrix(pbrMat.N)` (`nrd.rgen` line 350). -/
def psrMirrorProduct (normals : List Vec3) : Mat3 :=
  normals.foldl (fun acc n => acc.mul (buildMirrorMatrix n)) (Mat3.diagonal 1)

/-!
## NRD hit-distance sentinel

`NRD_INF` is defined in the repository's shader header `nrd.glsl`,
which is not among the provided sources; `pathtrace.rmiss`,
`nrd.rmiss` and `nrd.rgen` use it as the "infinite" hit-distance
sentinel.
-/

/-- Modelled from the spec: the sentinel "infinity" hit-distance value
`NRD_INF` (defined in the missing shader header `nrd.glsl`); the spec
only requires it to be a distinguished "infinite magnitude" value, so
it is modelled as a huge positive constant. -/
def NRD_INF : ℚ := 10 ^ 32

/-!
## Per-segment hit-distance reporting — `pathtrace.rchit`, `pathtrace.rmiss`

`pathtrace.rchit` `main` first records the true traced distance
(`payload.hitT = gl_HitTEXT`, line 214).  Inside `shading`, a shadow
ray may temporarily overwrite `payload.hitT`, but it is restored to
`gl_HitTEXT` right after (line 157).  If the BSDF sample is an
absorption event the shader negates the recorded distance
(`payload.hitT = -payload.hitT`, line 171).  On a miss,
`pathtrace.rmiss` stores the sentinel (`payload.hitT = NRD_INF`,
line 58).
-/

/-- One indirect path segment's trace result, as seen by the caller:
either the closest-hit shader ran at distance `gl_HitTEXT` (with or
without a terminating absorption event at the BSDF sampling step), or
the miss shader ran because the segment left the scene. -/
inductive SegmentTrace where
  | hit (glHitT : ℚ) (absorbed : Bool)
  | missEnv
deriving DecidableEq, Repr

/-- The `payload.hitT` value reported back to the ray-generation
shader for one traced segment (`pathtrace.rchit` lines 161–184 and 214,
`pathtrace.rmiss` line 58). -/
def reportedHitT : SegmentTrace → ℚ
  | .hit glHitT absorbed =>
      -- payload.hitT = gl_HitTEXT; the shadow-ray overwrite is restored
      -- to gl_HitTEXT before the BSDF sampling block runs
      if absorbed then -glHitT else glHitT
  | .missEnv => NRD_INF

/-!
## PSR mirror-chase loop — `nrd.rgen` lines 276–357

STEP 1 of `main`: a do-while loop (`do { ... ++psrDepth; } while(psrDepth < 5)`)
traces `nrd.rchit`/`nrd.rmiss` rays, following perfect mirrors.  The
scene responses (what each successive `traceRayEXT` reports) are
modelled as an oracle indexed by the number of traces performed so far;
the do-while bound is modelled by a fuel argument (`fuel = 5 - psrDepth`
remaining body executions).  `MICROFACET_MIN_ROUGHNESS` comes from the
external `nvvkhl` shader headers, so the mirror-test threshold is a
parameter.
-/

/-- The material fields of `pbrMat` that the PSR loop reads at a
surface hit. -/
structure PsrMaterial where
  roughnessX : ℚ
  metallic : ℚ
  emissive : Vec3
  bsdfOverPdf : Vec3
  N : Vec3
deriving DecidableEq, Repr

/-- Result of one `traceRayEXT` with the NRD payload: either the miss
shader ran (`payloadNrd.hitT == NRD_INF`, env radiance in the normal
slot), or the closest-hit shader reported a surface at distance
`hitT` whose evaluated material is `mat`. -/
inductive PsrTraceResult where
  | sky (envRadiance : Vec3)
  | surface (hitT : ℚ) (mat : PsrMaterial)
deriving DecidableEq, Repr

/-- `nrd.rgen` line 323: the hit is a non-mirror (primary) surface iff
`roughness.x > MICROFACET_MIN_ROUGHNESS² + 0.001 || metallic < 1.0`. -/
def isNonMirror (minRoughness : ℚ) (m : PsrMaterial) : Bool :=
  decide (m.roughnessX > minRoughness * minRoughness + 1/1000) || decide (m.metallic < 1)

/-- The mutable state of `main` that the PSR loop reads and writes
(`nrd.rgen` lines 277–282), plus the trace count. -/
structure PsrState where
  hitSky : Bool
  isPsr : Bool
  psrHitDist : ℚ
  psrThroughput : Vec3
  psrDirectRadiance : Vec3
  psrMirror : Mat3
  lastMat : Option PsrMaterial
  iterations : ℕ
deriving DecidableEq, Repr

/-- Initial values at `nrd.rgen` lines 277–282 (`hitSky = false`,
`isPsr = false`, `psrHitDist = 0`, `psrThroughput = vec3(1)`,
`psrDirectRadiance = vec3(0)`, `psrMirror = mat3(1)`). -/
def psrInitState : PsrState :=
  ⟨false, false, 0, Vec3.one, Vec3.zero, Mat3.diagonal 1, none, 0⟩

/-- How the PSR loop ended: background hit, non-mirror surface hit, or
the `psrDepth < 5` bound was exhausted. -/
inductive PsrOutcome where
  | sky
  | nonMirror
  | maxDepth
deriving DecidableEq, Repr

/-- The PSR do-while body (`nrd.rgen` lines 291–357), with `fuel`
counting the remaining permitted body executions. -/
def psrLoopAux (minRoughness : ℚ) (trace : ℕ → PsrTraceResult) :
    ℕ → PsrState → PsrState × PsrOutcome
  | 0, st => (st, .maxDepth)
  | fuel + 1, st =>
    match trace st.iterations with
    | .sky env =>
        -- lines 308–313: psrDirectRadiance += psrThroughput * envRadiance; break
        ({ st with
            hitSky := true
            psrDirectRadiance := st.psrDirectRadiance.add (st.psrThroughput.mul env)
            iterations := st.iterations + 1 }, .sky)
    | .surface hitT mat =>
        -- line 317: psrHitDist += payloadNrd.hitT
        let st1 : PsrState :=
          { st with
              psrHitDist := st.psrHitDist + hitT
              lastMat := some mat
              iterations := st.iterations + 1 }
        if isNonMirror minRoughness mat then (st1, .nonMirror)
        else
          -- lines 329–354: accumulate emissive, throughput, mirror matrix
          psrLoopAux minRoughness trace fuel
            { st1 with
                isPsr := true
                psrDirectRadiance := st1.psrDirectRadiance.add (st1.psrThroughput.mul mat.emissive)
                psrThroughput := st1.psrThroughput.mul mat.bsdfOverPdf
                psrMirror := st1.psrMirror.mul (buildMirrorMatrix mat.N) }

/-- STEP 1 of `nrd.rgen` `main`: the PSR loop run from the initial
state with the `psrDepth < 5` bound. -/
def psrLoop (minRoughness : ℚ) (trace : ℕ → PsrTraceResult) : PsrState × PsrOutcome :=
  psrLoopAux minRoughness trace 5 psrInitState

/-!
## Background-only early out — `nrd.rgen` lines 359–368

```glsl
if(hitSky)
{
  imageStore(nrdDirectLighting, pixelPos, vec4(psrDirectRadiance, 0.0));
  imageStore(nrdUDiff, pixelPos, vec4(0));
  imageStore(nrdUSpec, pixelPos, vec4(0));
  imageStore(nrdNormalRoughness, pixelPos, vec4(0));
  imageStore(nrdViewZ, pixelPos, vec4(-NRD_INF));
  return;
}
```
-/

/-- GLSL `vec4`. -/
structure Vec4 where
  x : ℚ
  y : ℚ
  z : ℚ
  w : ℚ
deriving DecidableEq, Repr

/-- The per-pixel buffer writes of one `nrd.rgen` invocation; only the
channels written by the background branch are modelled exactly, the
full-shading branch is supplied by an oracle.  `tracedIndirect` records
whether the shader went on to do direct-lighting and indirect
path-tracing work for the pixel. -/
structure Rg_Output where
  directLighting : Vec4
  uDiff : Vec4
  uSpec : Vec4
  normalRoughness : Vec4
  viewZ : ℚ
  tracedIndirect : Bool
deriving DecidableEq, Repr

/-- `nrd.rgen` `main`, up to the background early-out: run the PSR
loop; if it hit the sky, perform exactly the writes of lines 360–368
and return; otherwise the remaining shading work (modelled by the
oracle `rest`) produces the writes. -/
def rgenMain (minRoughness : ℚ) (trace : ℕ → PsrTraceResult)
    (rest : PsrState → Rg_Output) : Rg_Output :=
  let st := (psrLoop minRoughness trace).1
  if st.hitSky then
    { directLighting :=
        ⟨st.psrDirectRadiance.x, st.psrDirectRadiance.y, st.psrDirectRadiance.z, 0⟩
      uDiff := ⟨0, 0, 0, 0⟩
      uSpec := ⟨0, 0, 0, 0⟩
      normalRoughness := ⟨0, 0, 0, 0⟩
      viewZ := -NRD_INF
      tracedIndirect := false }
  else rest st

/-!
## Indirect diffuse/specular loop — `nrd.rgen` lines 433–521 (diffuse)
and 528–624 (specular)

Both lobes run the identical loop shape:

```glsl
float pathLength = 0.0;
... sample initial BSDF direction ...
if(sample.event_type != BSDF_EVENT_ABSORB)
{
  vec3 throughput = sample.bsdf_over_pdf * ratio;
  for(int depth = 1; depth < pc.maxDepth; depth++)
  {
    traceRayEXT(...);
    accum += payload.contrib * throughput;
    throughput *= payload.weight;
    if(depth == 1) { pathLength = abs(payload.hitT); }
    if(payload.hitT < 0.0) { break; }
  }
  ... firefly clamp ...
}
```

The per-segment trace results (payload after each `traceRayEXT`) are
an oracle indexed by `depth`.
-/

/-- The payload fields the indirect loop reads after one
`traceRayEXT` (set by `pathtrace.rchit` / `pathtrace.rmiss`). -/
structure SegmentPayload where
  hitT : ℚ
  contrib : Vec3
  weight : Vec3
deriving DecidableEq, Repr

/-- `nrd.rgen` lines 489–493 / 587–591: luminance-based firefly
suppression with the fixed weights `(0.212671, 0.715160, 0.072169)`. -/
def fireflyClamp (maxLuminance : ℚ) (accum : Vec3) : Vec3 :=
  let lum := accum.dot ⟨212671/1000000, 715160/1000000, 72169/1000000⟩
  if lum > maxLuminance then accum.mulScalar (maxLuminance / lum) else accum

/-- The `for(depth = 1; depth < pc.maxDepth; depth++)` loop body, with
`remaining = pc.maxDepth - depth` as fuel. -/
def indirectLoopAux (seg : ℕ → SegmentPayload) :
    ℕ → ℕ → Vec3 → Vec3 → ℚ → Vec3 × ℚ
  | 0, _, accum, _, pathLength => (accum, pathLength)
  | remaining + 1, depth, accum, throughput, pathLength =>
      let p := seg depth
      let accum := accum.add (p.contrib.mul throughput)
      let throughput := throughput.mul p.weight
      let pathLength := if depth = 1 then |p.hitT| else pathLength
      if p.hitT < 0 then (accum, pathLength)
      else indirectLoopAux seg remaining (depth + 1) accum throughput pathLength

/-- One indirect lobe of `nrd.rgen` STEP 3 / STEP 4: `pathLength`
starts at `0`; if the initial BSDF sample is an absorption event the
whole loop (and the firefly clamp) is skipped and the accumulator keeps
only the direct HDR contribution; otherwise the loop runs from
`depth = 1` and the result is firefly-clamped.  Returns
`(accumulated radiance, hit-distance proxy)`. -/
def indirectLobe (seg : ℕ → SegmentPayload) (maxDepth : ℕ) (maxLuminance : ℚ)
    (initialAbsorbed : Bool) (hdrRadiance throughput0 : Vec3) : Vec3 × ℚ :=
  if initialAbsorbed then (hdrRadiance, 0)
  else
    let r := indirectLoopAux seg (maxDepth - 1) 1 hdrRadiance throughput0 0
    (fireflyClamp maxLuminance r.1, r.2)

/-!
## NRD resource / dispatch translation — `NRDWrapper` (`src/unnamed/part_001`)

The NRD library's descriptor structures and the wrapper's translation
of them to Vulkan objects.  GPU handles (images) are modelled as plain
identifiers; the recorded Vulkan commands are reified as a list.
-/

/-- `nrd::DescriptorType` (`TEXTURE`, `STORAGE_TEXTURE`). -/
inductive NrdDescriptorType where
  | texture
  | storageTexture
deriving DecidableEq, Repr

/-- The Vulkan descriptor types the wrapper uses. -/
inductive VkDescriptorType where
  | sampledImage
  | storageImage
  | sampler
  | uniformBuffer
deriving DecidableEq, Repr

/-- `part_001` lines 116–123: `g_NRDDescriptorTypeToVulkan` maps
`TEXTURE ↦ SAMPLED_IMAGE`, `STORAGE_TEXTURE ↦ STORAGE_IMAGE`. -/
def NRDDescriptorTypeToVulkan : NrdDescriptorType → VkDescriptorType
  | .texture => .sampledImage
  | .storageTexture => .storageImage

/-- `nrd::ResourceType` as used by `dispatch` (lines 603–614): the two
internal pools are distinguished values; every other enum value selects
a slot of the user texture pool. -/
inductive NrdResourceType where
  | transientPool
  | permanentPool
  | user (idx : ℕ)
deriving DecidableEq, Repr

/-- `nrd::ResourceRangeDesc`. -/
structure ResourceRangeDesc where
  descriptorType : NrdDescriptorType
  baseRegisterIndex : ℕ
  descriptorsNum : ℕ
deriving DecidableEq, Repr

/-- `nrd::PipelineDesc` (the fields `dispatch` reads). -/
structure PipelineDesc where
  hasConstantData : Bool
  resourceRanges : List ResourceRangeDesc
deriving DecidableEq, Repr

/-- `nrd::ResourceDesc`: one concrete resource binding of a dispatch. -/
structure ResourceDesc where
  descriptorType : NrdDescriptorType
  type : NrdResourceType
  indexInPool : ℕ
deriving DecidableEq, Repr

/-- `nrd::DispatchDesc` (the fields `dispatch` reads); the constant
buffer payload is a byte blob. -/
structure DispatchDesc where
  pipelineIndex : ℕ
  resources : List ResourceDesc
  constantBufferData : List ℕ
  constantBufferDataMatchesPreviousDispatch : Bool
  gridWidth : ℕ
  gridHeight : ℕ
deriving DecidableEq, Repr

/-- `nrd::SPIRVBindingOffsets` from the library description. -/
structure SpirvBindingOffsets where
  constantBufferOffset : ℕ
  samplerOffset : ℕ
  textureOffset : ℕ
  storageTextureAndBufferOffset : ℕ
deriving DecidableEq, Repr

/-- One `VkWriteDescriptorSet` as pushed by `dispatch`. -/
structure DescriptorUpdate where
  dstBinding : ℕ
  descriptorType : VkDescriptorType
deriving DecidableEq, Repr

/-- The Vulkan access flags appearing in the wrapper's barriers. -/
inductive VkAccess where
  | shaderRead
  | shaderWrite
  | transferWrite
deriving DecidableEq, Repr

/-- One `VkImageMemoryBarrier` (`transitionToShaderRead` /
`transitionToShaderWrite`, lines 566–575); layouts are uniformly
`GENERAL` and are omitted. -/
structure ImageBarrier where
  srcAccess : VkAccess
  dstAccess : VkAccess
  image : ℕ
deriving DecidableEq, Repr

/-- The commands `NRDWrapper::dispatch` records into the command
buffer, in recording order. -/
inductive Cmd where
  | bufferBarrier (srcAccess dstAccess : VkAccess)
  | updateBuffer (data : List ℕ)
  | imageBarriers (barriers : List ImageBarrier)
  | pushDescriptors (updates : List DescriptorUpdate)
  | bindPipeline (pipelineIndex : ℕ)
  | dispatchCompute (gridWidth gridHeight : ℕ)
deriving DecidableEq, Repr

/-- The wrapper state `dispatch` reads (pipeline descriptions as
queried from the instance, binding offsets, texture pools, and the
single shared constant buffer's contents). -/
structure NRDWrapperState where
  pipelines : List PipelineDesc
  bindingOffsets : SpirvBindingOffsets
  samplersNum : ℕ
  samplersBaseRegisterIndex : ℕ
  transientTextures : List ℕ
  permanentTextures : List ℕ
  userTexturePool : ℕ → ℕ
  constantBufferContents : List ℕ

/-- Resolving a dispatch resource to its texture
(`dispatch`, lines 602–616). -/
def lookupTexture (st : NRDWrapperState) (r : ResourceDesc) : ℕ :=
  match r.type with
  | .transientPool => st.transientTextures.getD r.indexInPool 0
  | .permanentPool => st.permanentTextures.getD r.indexInPool 0
  | .user idx => st.userTexturePool idx

/-- The inner loop of `dispatch` over one resource range
(lines 590–628): `remaining` descriptors left in the range, `d` the
index within the range, `n` the flattened resource index
(`numResourceUpdates`).  The `assert(nrdResource.descriptorType ==
resourceRange.descriptorType)` at line 600 is a fatal contract check,
modelled as `Except.error`. -/
def processRangeResources (st : NRDWrapperState) (dd : DispatchDesc)
    (range : ResourceRangeDesc) :
    ℕ → ℕ → ℕ → Except String (ℕ × List DescriptorUpdate × List ImageBarrier)
  | 0, _, n => .ok (n, [], [])
  | remaining + 1, d, n =>
      let nrdResource := dd.resources.getD n ⟨.texture, .transientPool, 0⟩
      let isStorage := range.descriptorType = NrdDescriptorType.storageTexture
      let rangeBaseBindingIndex :=
        if isStorage then st.bindingOffsets.storageTextureAndBufferOffset
        else st.bindingOffsets.textureOffset
      if nrdResource.descriptorType = range.descriptorType then
        let update : DescriptorUpdate :=
          ⟨rangeBaseBindingIndex + d, NRDDescriptorTypeToVulkan nrdResource.descriptorType⟩
        let barrier : ImageBarrier :=
          if isStorage then ⟨.shaderRead, .shaderWrite, lookupTexture st nrdResource⟩
          else ⟨.shaderWrite, .shaderRead, lookupTexture st nrdResource⟩
        match processRangeResources st dd range remaining (d + 1) (n + 1) with
        | .ok (n2, us, bs) => .ok (n2, update :: us, barrier :: bs)
        | .error e => .error e
      else .error "descriptor kind mismatch"

/-- The outer loop of `dispatch` over the pipeline's resource ranges
(lines 583–629), threading `numResourceUpdates`. -/
def processResourceRanges (st : NRDWrapperState) (dd : DispatchDesc) :
    List ResourceRangeDesc → ℕ → Except String (ℕ × List DescriptorUpdate × List ImageBarrier)
  | [], n => .ok (n, [], [])
  | range :: rest, n =>
      match processRangeResources st dd range range.descriptorsNum 0 n with
      | .error e => .error e
      | .ok (n1, us1, bs1) =>
          match processResourceRanges st dd rest n1 with
          | .error e => .error e
          | .ok (n2, us2, bs2) => .ok (n2, us1 ++ us2, bs1 ++ bs2)

/-- The immutable-sampler "dummy" descriptor updates
(lines 632–644). -/
def samplerUpdates (st : NRDWrapperState) : List DescriptorUpdate :=
  (List.range st.samplersNum).map fun s =>
    ⟨st.bindingOffsets.samplerOffset + st.samplersBaseRegisterIndex + s, .sampler⟩

/-- `NRDWrapper::dispatch` (lines 546–709): process the pipeline's
resource ranges against the dispatch's resource list, append sampler
updates, optionally bind the shared constant buffer and — when its data
differs from the previous dispatch — upload the new contents bracketed
by a read→write and a write→read buffer barrier, then record the image
barriers, the descriptor push, the pipeline bind and the compute
dispatch. -/
def NRDWrapper_dispatch (st : NRDWrapperState) (dd : DispatchDesc) :
    Except String (List Cmd × NRDWrapperState) :=
  let pDesc := st.pipelines.getD dd.pipelineIndex ⟨false, []⟩
  match processResourceRanges st dd pDesc.resourceRanges 0 with
  | .error e => .error e
  | .ok (_, resourceUpdates, imgBarriers) =>
      let baseUpdates := resourceUpdates ++ samplerUpdates st
      let tailCmds := fun (updates : List DescriptorUpdate) =>
        [Cmd.imageBarriers imgBarriers,
         Cmd.pushDescriptors updates,
         Cmd.bindPipeline dd.pipelineIndex,
         Cmd.dispatchCompute dd.gridWidth dd.gridHeight]
      if pDesc.hasConstantData then
        let updates := baseUpdates ++
          [⟨st.bindingOffsets.constantBufferOffset, VkDescriptorType.uniformBuffer⟩]
        if dd.constantBufferDataMatchesPreviousDispatch then
          .ok (tailCmds updates, st)
        else
          .ok (Cmd.bufferBarrier .shaderRead .transferWrite ::
               Cmd.updateBuffer dd.constantBufferData ::
               Cmd.bufferBarrier .transferWrite .shaderRead :: tailCmds updates,
               { st with constantBufferContents := dd.constantBufferData })
      else .ok (tailCmds baseUpdates, st)

/-- The contract predicate of claim C2, stated over the flattened
resource list: within each range, every dispatched resource's kind
equals the range's declared kind (`n` is the flattened start index). -/
def rangeKindsOk (resources : List ResourceDesc) (t : NrdDescriptorType) :
    ℕ → ℕ → Bool
  | 0, _ => true
  | remaining + 1, n =>
      decide ((resources.getD n ⟨.texture, .transientPool, 0⟩).descriptorType = t) &&
      rangeKindsOk resources t remaining (n + 1)

/-- The contract predicate of claim C2 over all ranges of a pipeline. -/
def resourceKindsMatch (resources : List ResourceDesc) :
    List ResourceRangeDesc → ℕ → Bool
  | [], _ => true
  | range :: rest, n =>
      rangeKindsOk resources range.descriptorType range.descriptorsNum n &&
      resourceKindsMatch resources rest (n + range.descriptorsNum)

/-!
## Denoiser pool texture creation — `part_001` lines 135–138, 141–244, 325–339
-/

/-- `part_001` lines 135–138:

```cpp
static inline uint16_t DivideRoundUp(uint32_t dividend, uint16_t divisor)
{
  return uint16_t((dividend + divisor - 1) / divisor);
}
```

The sum is computed in 32-bit arithmetic and the quotient is truncated
to 16 bits. -/
def DivideRoundUp (dividend divisor : ℕ) : ℕ :=
  (((dividend + divisor - 1) % 2 ^ 32) / divisor) % 2 ^ 16

/-- `g_NRDFormatToVkFormat` (`part_001` lines 50–105): the
`nrd::Format`-indexed translation table to Vulkan pixel formats. -/
def g_NRDFormatToVkFormat : List String :=
  ["VK_FORMAT_R8_UNORM",
   "VK_FORMAT_R8_SNORM",
   "VK_FORMAT_R8_UINT",
   "VK_FORMAT_R8_SINT",
   "VK_FORMAT_R8G8_UNORM",
   "VK_FORMAT_R8G8_SNORM",
   "VK_FORMAT_R8G8_UINT",
   "VK_FORMAT_R8G8_SINT",
   "VK_FORMAT_R8G8B8A8_UNORM",
   "VK_FORMAT_R8G8B8A8_SNORM",
   "VK_FORMAT_A8B8G8R8_UINT_PACK32",
   "VK_FORMAT_R8G8B8A8_SINT",
   "VK_FORMAT_R8G8B8A8_SRGB",
   "VK_FORMAT_R16_UNORM",
   "VK_FORMAT_R16_SNORM",
   "VK_FORMAT_R16_UINT",
   "VK_FORMAT_R16_SINT",
   "VK_FORMAT_R16_SFLOAT",
   "VK_FORMAT_R16G16_UNORM",
   "VK_FORMAT_R16G16_SNORM",
   "VK_FORMAT_R16G16_UINT",
   "VK_FORMAT_R16G16_SINT",
   "VK_FORMAT_R16G16_SFLOAT",
   "VK_FORMAT_R16G16B16A16_UNORM",
   "VK_FORMAT_R16G16B16A16_SNORM",
   "VK_FORMAT_R16G16B16A16_UINT",
   "VK_FORMAT_R16G16B16A16_SINT",
   "VK_FORMAT_R16G16B16A16_SFLOAT",
   "VK_FORMAT_R32_UINT",
   "VK_FORMAT_R32_SINT",
   "VK_FORMAT_R32_SFLOAT",
   "VK_FORMAT_R32G32_UINT",
   "VK_FORMAT_R32G32_SINT",
   "VK_FORMAT_R32G32_SFLOAT",
   "VK_FORMAT_R32G32B32_UINT",
   "VK_FORMAT_R32G32B32_SINT",
   "VK_FORMAT_R32G32B32_SFLOAT",
   "VK_FORMAT_R32G32B32A32_UINT",
   "VK_FORMAT_R32G32B32A32_SINT",
   "VK_FORMAT_R32G32B32A32_SFLOAT",
   "VK_FORMAT_A2B10G10R10_UNORM_PACK32",
   "VK_FORMAT_A2R10G10B10_UINT_PACK32",
   "VK_FORMAT_B10G11R11_UFLOAT_PACK32",
   "VK_FORMAT_E5B9G9R9_UFLOAT_PACK32"]

/-- `NRDtoVKFormat` (`part_001` lines 109–113), indexing the table. -/
def NRDtoVKFormat (nrdFormat : ℕ) : String :=
  g_NRDFormatToVkFormat.getD nrdFormat "VK_FORMAT_UNDEFINED"

/-- `nrd::TextureDesc`: declared format and integer downsample
factor. -/
structure TextureDesc where
  format : ℕ
  downsampleFactor : ℕ
deriving DecidableEq, Repr

/-- The properties of one created pool texture that the claims
reference. -/
structure NvvkTexture where
  width : ℕ
  height : ℕ
  format : String
  clearedToZero : Bool
deriving DecidableEq, Repr

/-- `NRDWrapper::createTexture` (`part_001` lines 325–339): resolution
is the base resolution divided (rounding up) by the descriptor's
downsample factor, in the translated declared format. -/
def NRDWrapper_createTexture (tDesc : TextureDesc) (width height : ℕ) : NvvkTexture :=
  { width := DivideRoundUp width tDesc.downsampleFactor
    height := DivideRoundUp height tDesc.downsampleFactor
    format := NRDtoVKFormat tDesc.format
    clearedToZero := false }

/-- The constructor's pool setup (`part_001` lines 167–225): create the
permanent-pool and transient-pool textures, then transition each and
clear it to zero (`vkCmdClearColorImage` with `{0,0,0,0}`,
lines 206–222) before first use. -/
def NRDWrapper_initPools (permanentPool transientPool : List TextureDesc)
    (width height : ℕ) : List NvvkTexture × List NvvkTexture :=
  let perm := permanentPool.map fun d => NRDWrapper_createTexture d width height
  let trans := transientPool.map fun d => NRDWrapper_createTexture d width height
  (perm.map fun t => { t with clearedToZero := true },
   trans.map fun t => { t with clearedToZero := true })

/-!
## Theorems
-/

/-- C7: `powerHeuristic` computes `a² / (a² + b²)`; for equal positive
PDFs it equals `1/2`; a vanishing-PDF strategy gets weight `0` while the
other strategy's weight is `1` (`powerHeuristic 0 b = 0` for `b > 0`,
`powerHeuristic a 0 = 1` for `a > 0`). -/
theorem powerHeuristic_spec (a b p : ℚ) (ha : 0 < a) (hb : 0 < b) (hp : 0 < p) :
    powerHeuristic a b = a ^ 2 / (a ^ 2 + b ^ 2) ∧
    powerHeuristic p p = 1 / 2 ∧
    powerHeuristic 0 b = 0 ∧
    powerHeuristic a 0 = 1 := by
  refine ⟨?_, ?_, ?_, ?_⟩
  · show a * a / (b * b + a * a) = a ^ 2 / (a ^ 2 + b ^ 2)
    congr 1 <;> ring
  · show p * p / (p * p + p * p) = 1 / 2
    have hpp : p * p ≠ 0 := mul_ne_zero hp.ne' hp.ne'
    field_simp
    ring
  · show 0 * 0 / (b * b + 0 * 0) = 0
    simp
  · show a * a / (0 * 0 + a * a) = 1
    have haa : a * a ≠ 0 := mul_ne_zero ha.ne' ha.ne'
    simp [haa]

theorem powerHeuristic_spec_witness :
    powerHeuristic 2 3 = 2 ^ 2 / (2 ^ 2 + 3 ^ 2) ∧
    powerHeuristic 5 5 = 1 / 2 ∧
    powerHeuristic 0 3 = 0 ∧
    powerHeuristic 2 0 = 1 :=
  powerHeuristic_spec 2 3 5 (by norm_num) (by norm_num) (by norm_num)

/-- C1: the remodulation performed by the compositor exactly inverts the
demodulation performed by the ray-generation shader: for every
accumulated radiance `x` and every component-wise non-negative parameter
vector (the base color for the diffuse channel, the environment term
`Fenv` for the specular channel), `remodulate (demodulate x p) p = x`,
both stages computing the identical affine factor `p * 0.99 + 0.01`. -/
theorem remodulate_demodulate_roundTrip (x params : Vec3)
    (hx : 0 ≤ params.x) (hy : 0 ≤ params.y) (hz : 0 ≤ params.z) :
    remodulate (demodulate x params) params = x := by
  obtain ⟨px, py, pz⟩ := params
  obtain ⟨ax, ay, az⟩ := x
  simp only [remodulate, demodulate, demodFactor, Vec3.mul, Vec3.div,
    Vec3.mulScalar, Vec3.addScalar] at *
  have hfac : ∀ c : ℚ, 0 ≤ c → c * (99 / 100) + 1 / 100 ≠ 0 := by
    intro c hc
    positivity
  congr 1 <;> exact div_mul_cancel₀ _ (hfac _ (by assumption))

theorem remodulate_demodulate_roundTrip_witness :
    remodulate (demodulate ⟨1, 2, 3⟩ ⟨0, 1/2, 1⟩) ⟨0, 1/2, 1⟩ = ⟨1, 2, 3⟩ :=
  remodulate_demodulate_roundTrip ⟨1, 2, 3⟩ ⟨0, 1/2, 1⟩
    (by norm_num) (by norm_num) (by norm_num)

theorem mat3_mul_assoc (a b c : Mat3) : (a.mul b).mul c = a.mul (b.mul c) := by
  obtain ⟨⟨_, _, _⟩, ⟨_, _, _⟩, ⟨_, _, _⟩⟩ := a
  obtain ⟨⟨_, _, _⟩, ⟨_, _, _⟩, ⟨_, _, _⟩⟩ := b
  obtain ⟨⟨_, _, _⟩, ⟨_, _, _⟩, ⟨_, _, _⟩⟩ := c
  ext <;> simp [Mat3.mul, Mat3.mulVec, Vec3.smul, Vec3.add] <;> ring

theorem mat3_one_mul (a : Mat3) : Mat3.identity.mul a = a := by
  obtain ⟨⟨_, _, _⟩, ⟨_, _, _⟩, ⟨_, _, _⟩⟩ := a
  ext <;> simp [Mat3.mul, Mat3.mulVec, Mat3.identity, Mat3.diagonal, Vec3.smul, Vec3.add]

theorem mat3_mul_one (a : Mat3) : a.mul Mat3.identity = a := by
  obtain ⟨⟨_, _, _⟩, ⟨_, _, _⟩, ⟨_, _, _⟩⟩ := a
  ext <;> simp [Mat3.mul, Mat3.mulVec, Mat3.identity, Mat3.diagonal, Vec3.smul, Vec3.add]

theorem mat3_transpose_mul (a b : Mat3) :
    (a.mul b).transpose = b.transpose.mul a.transpose := by
  obtain ⟨⟨_, _, _⟩, ⟨_, _, _⟩, ⟨_, _, _⟩⟩ := a
  obtain ⟨⟨_, _, _⟩, ⟨_, _, _⟩, ⟨_, _, _⟩⟩ := b
  ext <;> simp [Mat3.mul, Mat3.mulVec, Mat3.transpose, Vec3.smul, Vec3.add] <;> ring

theorem buildMirrorMatrix_symmetric (n : Vec3) :
    (buildMirrorMatrix n).transpose = buildMirrorMatrix n := by
  obtain ⟨x, y, z⟩ := n
  ext <;> simp [buildMirrorMatrix, Mat3.transpose, vec3splat, Vec3.mul, Vec3.smul, Vec3.add] <;> ring

theorem buildMirrorMatrix_mul_self (n : Vec3) (hn : Vec3.dot n n = 1) :
    (buildMirrorMatrix n).mul (buildMirrorMatrix n) = Mat3.identity := by
  obtain ⟨x, y, z⟩ := n
  simp only [Vec3.dot] at hn
  ext <;>
    simp only [buildMirrorMatrix, Mat3.mul, Mat3.mulVec, Mat3.identity, Mat3.diagonal,
      vec3splat, Vec3.mul, Vec3.smul, Vec3.add]
  · linear_combination (4 * x * x) * hn
  · linear_combination (4 * y * x) * hn
  · linear_combination (4 * z * x) * hn
  · linear_combination (4 * x * y) * hn
  · linear_combination (4 * y * y) * hn
  · linear_combination (4 * z * y) * hn
  · linear_combination (4 * x * z) * hn
  · linear_combination (4 * y * z) * hn
  · linear_combination (4 * z * z) * hn

theorem psrMirrorFold_orthogonal (normals : List Vec3) (acc : Mat3)
    (hacc : acc.mul acc.transpose = Mat3.identity)
    (h : ∀ m ∈ normals, Vec3.dot m m = 1) :
    (normals.foldl (fun a n => a.mul (buildMirrorMatrix n)) acc).mul
      (normals.foldl (fun a n => a.mul (buildMirrorMatrix n)) acc).transpose =
      Mat3.identity := by
  induction normals generalizing acc with
  | nil => simpa using hacc
  | cons n ns ih =>
      simp only [List.foldl_cons]
      refine ih _ ?_ (fun m hm => h m (List.mem_cons_of_mem _ hm))
      have hsym := buildMirrorMatrix_symmetric n
      have hinv := buildMirrorMatrix_mul_self n (h n (List.mem_cons_self n ns))
      calc (acc.mul (buildMirrorMatrix n)).mul (acc.mul (buildMirrorMatrix n)).transpose
          = acc.mul ((buildMirrorMatrix n).mul
              ((buildMirrorMatrix n).transpose.mul acc.transpose)) := by
            rw [mat3_transpose_mul, mat3_mul_assoc]
        _ = acc.mul (((buildMirrorMatrix n).mul (buildMirrorMatrix n)).mul acc.transpose) := by
            rw [hsym, mat3_mul_assoc]
        _ = acc.mul acc.transpose := by rw [hinv, mat3_one_mul]
        _ = Mat3.identity := hacc

/-- C10: `buildMirrorMatrix n` is the Householder reflection `I - 2 n nᵀ`:
it is symmetric, its own inverse for unit `n`, and applies to any
direction `d` as `d - 2 (d · n) n`; the running `psrMirror` product
starts from `mat3(1.0)` (identity when no mirror was hit) and, for any
chain of unit mirror normals, the composed product is orthogonal
(`P Pᵀ = I`), so it validly transforms the virtual-world normal back to
world space. -/
theorem buildMirrorMatrix_householder (n d : Vec3) (normals : List Vec3)
    (hn : Vec3.dot n n = 1) (hns : ∀ m ∈ normals, Vec3.dot m m = 1) :
    buildMirrorMatrix n = householderMatrix n ∧
    (buildMirrorMatrix n).transpose = buildMirrorMatrix n ∧
    (buildMirrorMatrix n).mul (buildMirrorMatrix n) = Mat3.identity ∧
    (buildMirrorMatrix n).mulVec d = d.sub (Vec3.smul (2 * Vec3.dot d n) n) ∧
    psrMirrorProduct [] = Mat3.identity ∧
    (psrMirrorProduct normals).mul (psrMirrorProduct normals).transpose = Mat3.identity := by
  refine ⟨?_, buildMirrorMatrix_symmetric n, buildMirrorMatrix_mul_self n hn, ?_, ?_, ?_⟩
  · obtain ⟨x, y, z⟩ := n
    ext <;>
      simp [buildMirrorMatrix, householderMatrix, vec3splat, Vec3.mul, Vec3.smul, Vec3.add] <;>
      ring
  · obtain ⟨x, y, z⟩ := n
    obtain ⟨dx, dy, dz⟩ := d
    ext <;>
      simp [buildMirrorMatrix, Mat3.mulVec, vec3splat, Vec3.mul, Vec3.smul, Vec3.add,
        Vec3.sub, Vec3.dot] <;>
      ring
  · rfl
  · refine psrMirrorFold_orthogonal normals (Mat3.diagonal 1) ?_ hns
    ext <;>
      simp [Mat3.mul, Mat3.mulVec, Mat3.transpose, Mat3.identity, Mat3.diagonal,
        Vec3.smul, Vec3.add]

theorem buildMirrorMatrix_householder_witness :
    buildMirrorMatrix ⟨3/5, 4/5, 0⟩ = householderMatrix ⟨3/5, 4/5, 0⟩ ∧
    (buildMirrorMatrix ⟨3/5, 4/5, 0⟩).transpose = buildMirrorMatrix ⟨3/5, 4/5, 0⟩ ∧
    (buildMirrorMatrix ⟨3/5, 4/5, 0⟩).mul (buildMirrorMatrix ⟨3/5, 4/5, 0⟩) = Mat3.identity ∧
    (buildMirrorMatrix ⟨3/5, 4/5, 0⟩).mulVec ⟨1, 2, 3⟩ =
      Vec3.sub ⟨1, 2, 3⟩ (Vec3.smul (2 * Vec3.dot ⟨1, 2, 3⟩ ⟨3/5, 4/5, 0⟩) ⟨3/5, 4/5, 0⟩) ∧
    psrMirrorProduct [] = Mat3.identity ∧
    (psrMirrorProduct [⟨3/5, 4/5, 0⟩, ⟨0, 0, 1⟩]).mul
      (psrMirrorProduct [⟨3/5, 4/5, 0⟩, ⟨0, 0, 1⟩]).transpose = Mat3.identity :=
  buildMirrorMatrix_householder ⟨3/5, 4/5, 0⟩ ⟨1, 2, 3⟩ [⟨3/5, 4/5, 0⟩, ⟨0, 0, 1⟩]
    (by norm_num [Vec3.dot]) (by intro m hm; fin_cases hm <;> norm_num [Vec3.dot])

/-- C3: hit-distance sign convention of the indirect-path payload: a
segment terminated by a BSDF absorption event reports the negated
(hence non-positive) hit distance; a segment that leaves the scene
reports `NRD_INF` in magnitude; otherwise the reported value is the
true traced distance, so `abs` recovers the distance and the sign
detects termination. -/
theorem reportedHitT_sign_convention (t : ℚ) (ht : 0 < t) :
    reportedHitT (.hit t true) ≤ 0 ∧
    |reportedHitT (.hit t true)| = t ∧
    |reportedHitT .missEnv| = NRD_INF ∧
    reportedHitT (.hit t false) = t ∧
    |reportedHitT (.hit t false)| = t := by
  have h1 : reportedHitT (.hit t true) = -t := rfl
  have h2 : reportedHitT (.hit t false) = t := rfl
  have h3 : reportedHitT .missEnv = NRD_INF := rfl
  have hinf : (0 : ℚ) ≤ NRD_INF := by norm_num [NRD_INF]
  refine ⟨?_, ?_, ?_, h2, ?_⟩
  · rw [h1]
    linarith
  · rw [h1, abs_neg, abs_of_pos ht]
  · rw [h3, abs_of_nonneg hinf]
  · rw [h2, abs_of_pos ht]

theorem psrLoopAux_iterations_le (minRoughness : ℚ) (trace : ℕ → PsrTraceResult) :
    ∀ fuel st, (psrLoopAux minRoughness trace fuel st).1.iterations ≤ st.iterations + fuel := by
  intro fuel
  induction fuel with
  | zero =>
      intro st
      simp [psrLoopAux]
  | succ f ih =>
      intro st
      simp only [psrLoopAux]
      cases htr : trace st.iterations with
      | sky env =>
          simp only [htr]
          omega
      | surface hitT mat =>
          simp only [htr]
          by_cases h : isNonMirror minRoughness mat = true
          · simp [h]
          · simp only [h, Bool.false_eq_true, if_neg, if_false]
            refine le_trans (ih _) ?_
            simp
            omega

theorem psrLoopAux_maxDepth_lastHit (minRoughness : ℚ) (trace : ℕ → PsrTraceResult) :
    ∀ fuel st, (st.lastMat.isSome = true ∧ st.isPsr = true) ∨ 1 ≤ fuel →
      (psrLoopAux minRoughness trace fuel st).2 = PsrOutcome.maxDepth →
      (psrLoopAux minRoughness trace fuel st).1.lastMat.isSome = true ∧
      (psrLoopAux minRoughness trace fuel st).1.isPsr = true := by
  intro fuel
  induction fuel with
  | zero =>
      intro st h _
      simp only [psrLoopAux]
      rcases h with h | h
      · exact h
      · omega
  | succ f ih =>
      intro st _ hmd
      simp only [psrLoopAux] at hmd ⊢
      cases htr : trace st.iterations with
      | sky env =>
          simp [htr] at hmd
      | surface hitT mat =>
          simp only [htr] at hmd ⊢
          by_cases hm : isNonMirror minRoughness mat = true
          · simp [hm] at hmd
          · simp only [hm, Bool.false_eq_true, if_neg, if_false] at hmd ⊢
            exact ih _ (Or.inl ⟨by simp, by simp⟩) hmd

/-- C4: for every sequence of scene/material responses, the PSR loop of
the ray-generation shader performs at most 5 trace iterations and ends
by hitting the background, hitting a non-mirror surface, or exhausting
the fixed `psrDepth < 5` bound; when the bound is exhausted the loop
still holds the last hit reached (a mirror hit, `isPsr` set), which is
not an error. -/
theorem psrLoop_terminates_bounded (minRoughness : ℚ) (trace : ℕ → PsrTraceResult) :
    (psrLoop minRoughness trace).1.iterations ≤ 5 ∧
    ((psrLoop minRoughness trace).2 = PsrOutcome.sky ∨
     (psrLoop minRoughness trace).2 = PsrOutcome.nonMirror ∨
     (psrLoop minRoughness trace).2 = PsrOutcome.maxDepth) ∧
    ((psrLoop minRoughness trace).2 = PsrOutcome.maxDepth →
      (psrLoop minRoughness trace).1.lastMat.isSome = true ∧
      (psrLoop minRoughness trace).1.isPsr = true) := by
  refine ⟨?_, ?_, ?_⟩
  · have h := psrLoopAux_iterations_le minRoughness trace 5 psrInitState
    simpa [psrLoop, psrInitState] using h
  · cases h : (psrLoop minRoughness trace).2 <;> simp
  · exact psrLoopAux_maxDepth_lastHit minRoughness trace 5 psrInitState (Or.inr (by norm_num))

theorem psrLoop_terminates_bounded_witness :
    (psrLoop 0 (fun _ => PsrTraceResult.surface 1 ⟨0, 1, ⟨0, 0, 0⟩, ⟨1, 1, 1⟩, ⟨0, 0, 1⟩⟩)).1.iterations ≤ 5 ∧
    ((psrLoop 0 (fun _ => PsrTraceResult.surface 1 ⟨0, 1, ⟨0, 0, 0⟩, ⟨1, 1, 1⟩, ⟨0, 0, 1⟩⟩)).2 = PsrOutcome.sky ∨
     (psrLoop 0 (fun _ => PsrTraceResult.surface 1 ⟨0, 1, ⟨0, 0, 0⟩, ⟨1, 1, 1⟩, ⟨0, 0, 1⟩⟩)).2 = PsrOutcome.nonMirror ∨
     (psrLoop 0 (fun _ => PsrTraceResult.surface 1 ⟨0, 1, ⟨0, 0, 0⟩, ⟨1, 1, 1⟩, ⟨0, 0, 1⟩⟩)).2 = PsrOutcome.maxDepth) ∧
    ((psrLoop 0 (fun _ => PsrTraceResult.surface 1 ⟨0, 1, ⟨0, 0, 0⟩, ⟨1, 1, 1⟩, ⟨0, 0, 1⟩⟩)).2 = PsrOutcome.maxDepth →
      (psrLoop 0 (fun _ => PsrTraceResult.surface 1 ⟨0, 1, ⟨0, 0, 0⟩, ⟨1, 1, 1⟩, ⟨0, 0, 1⟩⟩)).1.lastMat.isSome = true ∧
      (psrLoop 0 (fun _ => PsrTraceResult.surface 1 ⟨0, 1, ⟨0, 0, 0⟩, ⟨1, 1, 1⟩, ⟨0, 0, 1⟩⟩)).1.isPsr = true) :=
  psrLoop_terminates_bounded 0 (fun _ => PsrTraceResult.surface 1 ⟨0, 1, ⟨0, 0, 0⟩, ⟨1, 1, 1⟩, ⟨0, 0, 1⟩⟩)

/-- C6: when the primary/PSR trace reaches the background, the
ray-generation shader records the accumulated direct radiance
(including the mirror-throughput-weighted background radiance, see the
last conjunct for the sky accumulation step) with alpha 0 into the
direct-lighting buffer, zeroes the unfiltered diffuse, unfiltered
specular and normal/roughness buffers, writes a view-depth of infinite
magnitude, and performs no further shading work for the pixel. -/
theorem rgen_background_early_out (minRoughness : ℚ) (trace : ℕ → PsrTraceResult)
    (rest : PsrState → Rg_Output)
    (hsky : (psrLoop minRoughness trace).1.hitSky = true) :
    rgenMain minRoughness trace rest =
      { directLighting := ⟨(psrLoop minRoughness trace).1.psrDirectRadiance.x,
                           (psrLoop minRoughness trace).1.psrDirectRadiance.y,
                           (psrLoop minRoughness trace).1.psrDirectRadiance.z, 0⟩
        uDiff := ⟨0, 0, 0, 0⟩
        uSpec := ⟨0, 0, 0, 0⟩
        normalRoughness := ⟨0, 0, 0, 0⟩
        viewZ := -NRD_INF
        tracedIndirect := false } ∧
    |(rgenMain minRoughness trace rest).viewZ| = NRD_INF ∧
    (∀ st env fuel, trace st.iterations = PsrTraceResult.sky env →
      (psrLoopAux minRoughness trace (fuel + 1) st).1.psrDirectRadiance =
        st.psrDirectRadiance.add (st.psrThroughput.mul env)) := by
  refine ⟨?_, ?_, ?_⟩
  · simp [rgenMain, hsky]
  · have hinf : (0 : ℚ) ≤ NRD_INF := by norm_num [NRD_INF]
    simp only [rgenMain, hsky, if_pos]
    rw [abs_neg, abs_of_nonneg hinf]
  · intro st env fuel htr
    simp [psrLoopAux, htr]

theorem rgen_background_early_out_witness :
    rgenMain 0 (fun _ => PsrTraceResult.sky ⟨2, 3, 4⟩)
        (fun _ => ⟨⟨0, 0, 0, 0⟩, ⟨0, 0, 0, 0⟩, ⟨0, 0, 0, 0⟩, ⟨0, 0, 0, 0⟩, 0, true⟩) =
      { directLighting :=
          ⟨(psrLoop 0 (fun _ => PsrTraceResult.sky ⟨2, 3, 4⟩)).1.psrDirectRadiance.x,
           (psrLoop 0 (fun _ => PsrTraceResult.sky ⟨2, 3, 4⟩)).1.psrDirectRadiance.y,
           (psrLoop 0 (fun _ => PsrTraceResult.sky ⟨2, 3, 4⟩)).1.psrDirectRadiance.z, 0⟩
        uDiff := ⟨0, 0, 0, 0⟩
        uSpec := ⟨0, 0, 0, 0⟩
        normalRoughness := ⟨0, 0, 0, 0⟩
        viewZ := -NRD_INF
        tracedIndirect := false } ∧
    |(rgenMain 0 (fun _ => PsrTraceResult.sky ⟨2, 3, 4⟩)
        (fun _ => ⟨⟨0, 0, 0, 0⟩, ⟨0, 0, 0, 0⟩, ⟨0, 0, 0, 0⟩, ⟨0, 0, 0, 0⟩, 0, true⟩)).viewZ| =
      NRD_INF ∧
    (∀ st env fuel, (fun _ => PsrTraceResult.sky ⟨2, 3, 4⟩) st.iterations = PsrTraceResult.sky env →
      (psrLoopAux 0 (fun _ => PsrTraceResult.sky ⟨2, 3, 4⟩) (fuel + 1) st).1.psrDirectRadiance =
        st.psrDirectRadiance.add (st.psrThroughput.mul env)) :=
  rgen_background_early_out 0 (fun _ => PsrTraceResult.sky ⟨2, 3, 4⟩)
    (fun _ => ⟨⟨0, 0, 0, 0⟩, ⟨0, 0, 0, 0⟩, ⟨0, 0, 0, 0⟩, ⟨0, 0, 0, 0⟩, 0, true⟩) (by decide)

theorem indirectLoopAux_pathLength_const (seg : ℕ → SegmentPayload) :
    ∀ remaining depth accum throughput pathLength, 2 ≤ depth →
      (indirectLoopAux seg remaining depth accum throughput pathLength).2 = pathLength := by
  intro remaining
  induction remaining with
  | zero =>
      intros
      simp [indirectLoopAux]
  | succ r ih =>
      intro depth accum throughput pathLength hd
      have hne : depth ≠ 1 := by omega
      simp only [indirectLoopAux, hne, if_false]
      by_cases hh : (seg depth).hitT < 0
      · simp [hh]
      · simp only [hh, if_neg, if_false]
        exact ih _ _ _ _ (by omega)

/-- C5: in the indirect lobes, the scalar hit-distance proxy equals
`abs(payload.hitT)` of the first indirect bounce (`depth == 1`) only —
later bounces never change it; an initial absorption event skips the
loop, yielding proxy 0 and no indirect contribution beyond the direct
HDR term; and a first-bounce miss (`hitT = NRD_INF`) reports the
infinity sentinel as the proxy. -/
theorem indirectLobe_hitDistProxy (seg : ℕ → SegmentPayload) (maxDepth : ℕ)
    (maxLuminance : ℚ) (hdrRadiance throughput0 : Vec3) (hmd : 2 ≤ maxDepth) :
    (indirectLobe seg maxDepth maxLuminance false hdrRadiance throughput0).2 =
      |(seg 1).hitT| ∧
    indirectLobe seg maxDepth maxLuminance true hdrRadiance throughput0 = (hdrRadiance, 0) ∧
    ((seg 1).hitT = NRD_INF →
      (indirectLobe seg maxDepth maxLuminance false hdrRadiance throughput0).2 = NRD_INF) := by
  have key : (indirectLobe seg maxDepth maxLuminance false hdrRadiance throughput0).2 =
      |(seg 1).hitT| := by
    obtain ⟨r, hr⟩ : ∃ r, maxDepth - 1 = r + 1 := ⟨maxDepth - 2, by omega⟩
    simp only [indirectLobe, Bool.false_eq_true, if_false, hr]
    simp only [indirectLoopAux, if_pos rfl]
    by_cases hh : (seg 1).hitT < 0
    · simp [hh]
    · simp only [hh, if_neg, if_false]
      exact indirectLoopAux_pathLength_const seg r 2 _ _ _ (by omega)
  refine ⟨key, ?_, ?_⟩
  · simp [indirectLobe]
  · intro h
    rw [key, h, abs_of_nonneg]
    norm_num [NRD_INF]

theorem indirectLobe_hitDistProxy_witness :
    (indirectLobe (fun _ => ⟨-2, ⟨1, 0, 0⟩, ⟨1, 1, 1⟩⟩) 3 100 false ⟨0, 0, 0⟩ ⟨1, 1, 1⟩).2 =
      |((fun _ : ℕ => (⟨-2, ⟨1, 0, 0⟩, ⟨1, 1, 1⟩⟩ : SegmentPayload)) 1).hitT| ∧
    indirectLobe (fun _ => ⟨-2, ⟨1, 0, 0⟩, ⟨1, 1, 1⟩⟩) 3 100 true ⟨0, 0, 0⟩ ⟨1, 1, 1⟩ =
      (⟨0, 0, 0⟩, 0) ∧
    (((fun _ : ℕ => (⟨-2, ⟨1, 0, 0⟩, ⟨1, 1, 1⟩⟩ : SegmentPayload)) 1).hitT = NRD_INF →
      (indirectLobe (fun _ => ⟨-2, ⟨1, 0, 0⟩, ⟨1, 1, 1⟩⟩) 3 100 false ⟨0, 0, 0⟩ ⟨1, 1, 1⟩).2 =
        NRD_INF) :=
  indirectLobe_hitDistProxy (fun _ => ⟨-2, ⟨1, 0, 0⟩, ⟨1, 1, 1⟩⟩) 3 100 ⟨0, 0, 0⟩ ⟨1, 1, 1⟩
    (by norm_num)

theorem reportedHitT_sign_convention_witness :
    reportedHitT (.hit (1/2) true) ≤ 0 ∧
    |reportedHitT (.hit (1/2) true)| = 1/2 ∧
    |reportedHitT .missEnv| = NRD_INF ∧
    reportedHitT (.hit (1/2) false) = 1/2 ∧
    |reportedHitT (.hit (1/2) false)| = 1/2 :=
  reportedHitT_sign_convention (1/2) (by norm_num)

theorem DivideRoundUp_eq_ceilDiv (x f : ℕ) (hf : 0 < f) (hf16 : f < 2 ^ 16)
    (hx : x < 2 ^ 16) :
    DivideRoundUp x f = x ⌈/⌉ f ∧
    x ≤ f * DivideRoundUp x f ∧ f * DivideRoundUp x f < x + f := by
  obtain ⟨g, rfl⟩ : ∃ g, f = g + 1 := ⟨f - 1, by omega⟩
  have h32 : x + (g + 1) - 1 < 2 ^ 32 := by omega
  have hdiv : (x + (g + 1) - 1) / (g + 1) < 2 ^ 16 := by
    rw [Nat.div_lt_iff_lt_mul (by omega)]
    have hgg : g + 1 ≤ 2 ^ 16 * (g + 1) := Nat.le_mul_of_pos_left _ (by omega)
    omega
  have hD : DivideRoundUp x (g + 1) = (x + (g + 1) - 1) / (g + 1) := by
    unfold DivideRoundUp
    rw [Nat.mod_eq_of_lt h32, Nat.mod_eq_of_lt hdiv]
  have hqr := Nat.div_add_mod (x + g) (g + 1)
  have hrlt : (x + g) % (g + 1) < g + 1 := Nat.mod_lt _ (by omega)
  have hsimp : x + (g + 1) - 1 = x + g := by omega
  refine ⟨?_, ?_, ?_⟩
  · rw [hD, Nat.ceilDiv_eq_add_pred_div]
  · rw [hD, hsimp]
    omega
  · rw [hD, hsimp]
    omega

/-- C8: every permanent-pool and transient-pool texture is created at
the base resolution divided by the descriptor's downsample factor
rounded up (`DivideRoundUp x f` computes exactly `⌈x / f⌉` for every
positive 16-bit divisor and 16-bit base extent, characterised by
`x ≤ f·res < x + f`), in the descriptor's declared (translated) pixel
format, and is cleared to zero before first use. -/
theorem nrd_pool_texture_creation (permanentPool transientPool : List TextureDesc)
    (width height : ℕ) (hw : width < 2 ^ 16) (hh : height < 2 ^ 16) :
    (∀ x f, 0 < f → f < 2 ^ 16 → x < 2 ^ 16 →
      DivideRoundUp x f = x ⌈/⌉ f ∧
      x ≤ f * DivideRoundUp x f ∧ f * DivideRoundUp x f < x + f) ∧
    (NRDWrapper_initPools permanentPool transientPool width height).1 =
      permanentPool.map (fun d =>
        ⟨DivideRoundUp width d.downsampleFactor, DivideRoundUp height d.downsampleFactor,
         NRDtoVKFormat d.format, true⟩) ∧
    (NRDWrapper_initPools permanentPool transientPool width height).2 =
      transientPool.map (fun d =>
        ⟨DivideRoundUp width d.downsampleFactor, DivideRoundUp height d.downsampleFactor,
         NRDtoVKFormat d.format, true⟩) ∧
    (∀ d ∈ permanentPool, 0 < d.downsampleFactor → d.downsampleFactor < 2 ^ 16 →
      (NRDWrapper_createTexture d width height).width = width ⌈/⌉ d.downsampleFactor ∧
      (NRDWrapper_createTexture d width height).height = height ⌈/⌉ d.downsampleFactor) ∧
    (∀ d ∈ transientPool, 0 < d.downsampleFactor → d.downsampleFactor < 2 ^ 16 →
      (NRDWrapper_createTexture d width height).width = width ⌈/⌉ d.downsampleFactor ∧
      (NRDWrapper_createTexture d width height).height = height ⌈/⌉ d.downsampleFactor) := by
  refine ⟨fun x f hf hf16 hx => DivideRoundUp_eq_ceilDiv x f hf hf16 hx, ?_, ?_, ?_, ?_⟩
  · simp [NRDWrapper_initPools, NRDWrapper_createTexture, List.map_map, Function.comp]
  · simp [NRDWrapper_initPools, NRDWrapper_createTexture, List.map_map, Function.comp]
  · intro d _ hf hf16
    exact ⟨(DivideRoundUp_eq_ceilDiv width d.downsampleFactor hf hf16 hw).1,
           (DivideRoundUp_eq_ceilDiv height d.downsampleFactor hf hf16 hh).1⟩
  · intro d _ hf hf16
    exact ⟨(DivideRoundUp_eq_ceilDiv width d.downsampleFactor hf hf16 hw).1,
           (DivideRoundUp_eq_ceilDiv height d.downsampleFactor hf hf16 hh).1⟩

theorem nrd_pool_texture_creation_witness :
    (∀ x f, 0 < f → f < 2 ^ 16 → x < 2 ^ 16 →
      DivideRoundUp x f = x ⌈/⌉ f ∧
      x ≤ f * DivideRoundUp x f ∧ f * DivideRoundUp x f < x + f) ∧
    (NRDWrapper_initPools [⟨4, 3⟩] [⟨27, 2⟩] 1920 1080).1 =
      [⟨DivideRoundUp 1920 3, DivideRoundUp 1080 3, NRDtoVKFormat 4, true⟩] ∧
    (NRDWrapper_initPools [⟨4, 3⟩] [⟨27, 2⟩] 1920 1080).2 =
      [⟨DivideRoundUp 1920 2, DivideRoundUp 1080 2, NRDtoVKFormat 27, true⟩] ∧
    (∀ d ∈ [(⟨4, 3⟩ : TextureDesc)], 0 < d.downsampleFactor → d.downsampleFactor < 2 ^ 16 →
      (NRDWrapper_createTexture d 1920 1080).width = 1920 ⌈/⌉ d.downsampleFactor ∧
      (NRDWrapper_createTexture d 1920 1080).height = 1080 ⌈/⌉ d.downsampleFactor) ∧
    (∀ d ∈ [(⟨27, 2⟩ : TextureDesc)], 0 < d.downsampleFactor → d.downsampleFactor < 2 ^ 16 →
      (NRDWrapper_createTexture d 1920 1080).width = 1920 ⌈/⌉ d.downsampleFactor ∧
      (NRDWrapper_createTexture d 1920 1080).height = 1080 ⌈/⌉ d.downsampleFactor) :=
  nrd_pool_texture_creation [⟨4, 3⟩] [⟨27, 2⟩] 1920 1080 (by norm_num) (by norm_num)
theorem processRangeResources_spec (st : NRDWrapperState) (dd : DispatchDesc)
    (range : ResourceRangeDesc) :
    ∀ remaining d n,
      (rangeKindsOk dd.resources range.descriptorType remaining n = true →
        ∃ us bs, processRangeResources st dd range remaining d n = .ok (n + remaining, us, bs)) ∧
      (rangeKindsOk dd.resources range.descriptorType remaining n = false →
        processRangeResources st dd range remaining d n = .error "descriptor kind mismatch") := by
  intro remaining
  induction remaining with
  | zero =>
      intro d n
      refine ⟨fun _ => ⟨[], [], rfl⟩, fun h => ?_⟩
      simp [rangeKindsOk] at h
  | succ r ih =>
      intro d n
      constructor
      · intro h
        simp only [rangeKindsOk, Bool.and_eq_true, decide_eq_true_eq] at h
        obtain ⟨h1, h2⟩ := h
        obtain ⟨us, bs, hrec⟩ := (ih (d + 1) (n + 1)).1 h2
        have hn : n + (r + 1) = n + 1 + r := by omega
        exact ⟨_, _, by
          rw [hn]
          simp only [processRangeResources, h1, if_pos, hrec]
          rfl⟩
      · intro h
        simp only [rangeKindsOk, Bool.and_eq_false_iff, decide_eq_false_iff_not] at h
        by_cases h1 : (dd.resources.getD n ⟨.texture, .transientPool, 0⟩).descriptorType =
            range.descriptorType
        · have h2 : rangeKindsOk dd.resources range.descriptorType r (n + 1) = false := by
            rcases h with h | h
            · exact absurd h1 h
            · exact h
          have hrec := (ih (d + 1) (n + 1)).2 h2
          simp only [processRangeResources, h1, if_pos, hrec]
        · simp only [processRangeResources, h1, if_false, if_neg, not_false_iff]

theorem processResourceRanges_spec (st : NRDWrapperState) (dd : DispatchDesc) :
    ∀ ranges n,
      (resourceKindsMatch dd.resources ranges n = true →
        ∃ r, processResourceRanges st dd ranges n = .ok r) ∧
      (resourceKindsMatch dd.resources ranges n = false →
        processResourceRanges st dd ranges n = .error "descriptor kind mismatch") := by
  intro ranges
  induction ranges with
  | nil =>
      intro n
      refine ⟨fun _ => ⟨(n, [], []), rfl⟩, fun h => ?_⟩
      simp [resourceKindsMatch] at h
  | cons range rest ih =>
      intro n
      constructor
      · intro h
        simp only [resourceKindsMatch, Bool.and_eq_true] at h
        obtain ⟨h1, h2⟩ := h
        obtain ⟨us, bs, hr⟩ :=
          (processRangeResources_spec st dd range range.descriptorsNum 0 n).1 h1
        obtain ⟨⟨n2, us2, bs2⟩, hr2⟩ := (ih (n + range.descriptorsNum)).1 h2
        refine ⟨(n2, us ++ us2, bs ++ bs2), ?_⟩
        simp only [processResourceRanges, hr, hr2]
      · intro h
        simp only [resourceKindsMatch, Bool.and_eq_false_iff] at h
        by_cases h1 : rangeKindsOk dd.resources range.descriptorType range.descriptorsNum n = true
        · have h2 : resourceKindsMatch dd.resources rest (n + range.descriptorsNum) = false := by
            rcases h with h | h
            · rw [h1] at h
              exact absurd h (by simp)
            · exact h
          obtain ⟨us, bs, hr⟩ :=
            (processRangeResources_spec st dd range range.descriptorsNum 0 n).1 h1
          have hr2 := (ih (n + range.descriptorsNum)).2 h2
          simp only [processResourceRanges, hr, hr2]
        · have h1' : rangeKindsOk dd.resources range.descriptorType range.descriptorsNum n = false := by
            revert h1
            cases rangeKindsOk dd.resources range.descriptorType range.descriptorsNum n <;> simp
          have hr := (processRangeResources_spec st dd range range.descriptorsNum 0 n).2 h1'
          simp only [processResourceRanges, hr]

/-- C2: for every dispatch executed by `NRDWrapper::dispatch`, the
dispatch succeeds (the kind assertion at the resource-translation loop
never fires) precisely when every dispatch resource entry's descriptor
kind equals the kind declared by the corresponding range of the
matching pipeline descriptor; any mismatch is a fatal contract
violation (`dispatch` aborts with an error), not a recoverable
condition. -/
theorem dispatch_resource_kind_invariant (st : NRDWrapperState) (dd : DispatchDesc) :
    (resourceKindsMatch dd.resources
        (st.pipelines.getD dd.pipelineIndex ⟨false, []⟩).resourceRanges 0 = true →
      (NRDWrapper_dispatch st dd).isOk = true) ∧
    (resourceKindsMatch dd.resources
        (st.pipelines.getD dd.pipelineIndex ⟨false, []⟩).resourceRanges 0 = false →
      NRDWrapper_dispatch st dd = .error "descriptor kind mismatch") := by
  constructor
  · intro h
    obtain ⟨⟨n, us, bs⟩, hr⟩ := (processResourceRanges_spec st dd
      (st.pipelines.getD dd.pipelineIndex ⟨false, []⟩).resourceRanges 0).1 h
    simp only [NRDWrapper_dispatch, hr]
    split <;> first
      | rfl
      | split <;> rfl
  · intro h
    have hr := (processResourceRanges_spec st dd
      (st.pipelines.getD dd.pipelineIndex ⟨false, []⟩).resourceRanges 0).2 h
    simp only [NRDWrapper_dispatch, hr]

theorem dispatch_resource_kind_invariant_witness :
    (NRDWrapper_dispatch
      ⟨[⟨true, [⟨.texture, 0, 1⟩, ⟨.storageTexture, 0, 1⟩]⟩], ⟨0, 1, 2, 3⟩, 0, 0,
        [7], [9], fun _ => 0, []⟩
      ⟨0, [⟨.texture, .transientPool, 0⟩, ⟨.storageTexture, .permanentPool, 0⟩],
        [42], false, 8, 8⟩).isOk = true ∧
    NRDWrapper_dispatch
      ⟨[⟨true, [⟨.texture, 0, 1⟩, ⟨.storageTexture, 0, 1⟩]⟩], ⟨0, 1, 2, 3⟩, 0, 0,
        [7], [9], fun _ => 0, []⟩
      ⟨0, [⟨.storageTexture, .transientPool, 0⟩, ⟨.storageTexture, .permanentPool, 0⟩],
        [42], false, 8, 8⟩ = .error "descriptor kind mismatch" :=
  ⟨(dispatch_resource_kind_invariant _ _).1 (by decide),
   (dispatch_resource_kind_invariant _ _).2 (by decide)⟩
/-- C9: in `NRDWrapper::dispatch`, the shared constant buffer's
contents change iff the pipeline declares constant data and the
dispatch's `constantBufferDataMatchesPreviousDispatch` flag is false,
in which case the upload is bracketed by a read→write barrier before
and a write→read barrier after; otherwise no buffer barrier or upload
command is recorded and the contents are unchanged, while the constant
buffer's descriptor binding is still pushed whenever the pipeline
declares constant data. -/
theorem dispatch_constant_buffer_upload (st : NRDWrapperState) (dd : DispatchDesc)
    (cmds : List Cmd) (st2 : NRDWrapperState)
    (h : NRDWrapper_dispatch st dd = .ok (cmds, st2)) :
    ((st.pipelines.getD dd.pipelineIndex ⟨false, []⟩).hasConstantData = true ∧
        dd.constantBufferDataMatchesPreviousDispatch = false →
      st2.constantBufferContents = dd.constantBufferData ∧
      ∃ ibs updates,
        cmds = Cmd.bufferBarrier .shaderRead .transferWrite ::
          Cmd.updateBuffer dd.constantBufferData ::
          Cmd.bufferBarrier .transferWrite .shaderRead ::
          [Cmd.imageBarriers ibs, Cmd.pushDescriptors updates,
           Cmd.bindPipeline dd.pipelineIndex,
           Cmd.dispatchCompute dd.gridWidth dd.gridHeight]) ∧
    ((st.pipelines.getD dd.pipelineIndex ⟨false, []⟩).hasConstantData = false ∨
        dd.constantBufferDataMatchesPreviousDispatch = true →
      st2.constantBufferContents = st.constantBufferContents ∧
      (∀ s t, Cmd.bufferBarrier s t ∉ cmds) ∧
      (∀ data, Cmd.updateBuffer data ∉ cmds)) ∧
    ((st.pipelines.getD dd.pipelineIndex ⟨false, []⟩).hasConstantData = true →
      ∃ updates, Cmd.pushDescriptors updates ∈ cmds ∧
        (⟨st.bindingOffsets.constantBufferOffset, VkDescriptorType.uniformBuffer⟩ :
          DescriptorUpdate) ∈ updates) := by
  simp only [NRDWrapper_dispatch] at h
  cases hpr : processResourceRanges st dd
      (st.pipelines.getD dd.pipelineIndex ⟨false, []⟩).resourceRanges 0 with
  | error e =>
      rw [hpr] at h
      cases h
  | ok r =>
      obtain ⟨n, us, bs⟩ := r
      rw [hpr] at h
      by_cases hc : (st.pipelines.getD dd.pipelineIndex ⟨false, []⟩).hasConstantData = true
      · by_cases hm : dd.constantBufferDataMatchesPreviousDispatch = true
        · simp only [hc, hm, if_true] at h
          rw [Except.ok.injEq, Prod.mk.injEq] at h
          obtain ⟨hcmds, hst2⟩ := h
          subst hcmds
          subst hst2
          refine ⟨?_, ?_, ?_⟩
          · rintro ⟨-, hmf⟩
            rw [hm] at hmf
            cases hmf
          · intro _
            refine ⟨rfl, ?_, ?_⟩ <;> intros <;> simp
          · intro _
            refine ⟨us ++ (samplerUpdates st ++
              [⟨st.bindingOffsets.constantBufferOffset, VkDescriptorType.uniformBuffer⟩]),
              by simp, by simp⟩
        · simp only [hc, hm, if_true, Bool.false_eq_true, if_false] at h
          rw [Except.ok.injEq, Prod.mk.injEq] at h
          obtain ⟨hcmds, hst2⟩ := h
          subst hcmds
          subst hst2
          refine ⟨?_, ?_, ?_⟩
          · intro _
            exact ⟨rfl, bs, _, rfl⟩
          · rintro (hcf | hmt)
            · rw [hc] at hcf
              cases hcf
            · exact absurd hmt hm
          · intro _
            refine ⟨us ++ (samplerUpdates st ++
              [⟨st.bindingOffsets.constantBufferOffset, VkDescriptorType.uniformBuffer⟩]),
              by simp, by simp⟩
      · have hcf : (st.pipelines.getD dd.pipelineIndex ⟨false, []⟩).hasConstantData = false := by
          revert hc
          cases (st.pipelines.getD dd.pipelineIndex ⟨false, []⟩).hasConstantData <;> simp
        simp only [hcf, Bool.false_eq_true, if_false] at h
        rw [Except.ok.injEq, Prod.mk.injEq] at h
        obtain ⟨hcmds, hst2⟩ := h
        subst hcmds
        subst hst2
        refine ⟨?_, ?_, ?_⟩
        · rintro ⟨hct, -⟩
          rw [hcf] at hct
          cases hct
        · intro _
          refine ⟨rfl, ?_, ?_⟩ <;> intros <;> simp
        · intro hct
          rw [hcf] at hct
          cases hct

theorem dispatch_constant_buffer_upload_witness :
    (NRDWrapperState.constantBufferContents
      ⟨[⟨true, [⟨.texture, 0, 1⟩, ⟨.storageTexture, 0, 1⟩]⟩], ⟨0, 1, 2, 3⟩, 0, 0,
        [7], [9], fun _ => 0, [42]⟩) = [42] ∧
    ∃ ibs updates,
      [Cmd.bufferBarrier .shaderRead .transferWrite,
       Cmd.updateBuffer [42],
       Cmd.bufferBarrier .transferWrite .shaderRead,
       Cmd.imageBarriers [⟨.shaderWrite, .shaderRead, 7⟩, ⟨.shaderRead, .shaderWrite, 9⟩],
       Cmd.pushDescriptors [⟨2, .sampledImage⟩, ⟨3, .storageImage⟩, ⟨0, .uniformBuffer⟩],
       Cmd.bindPipeline 0, Cmd.dispatchCompute 8 8] =
        Cmd.bufferBarrier .shaderRead .transferWrite ::
        Cmd.updateBuffer [42] ::
        Cmd.bufferBarrier .transferWrite .shaderRead ::
        [Cmd.imageBarriers ibs, Cmd.pushDescriptors updates,
         Cmd.bindPipeline 0, Cmd.dispatchCompute 8 8] := by
  have h : NRDWrapper_dispatch
      ⟨[⟨true, [⟨.texture, 0, 1⟩, ⟨.storageTexture, 0, 1⟩]⟩], ⟨0, 1, 2, 3⟩, 0, 0,
        [7], [9], fun _ => 0, []⟩
      ⟨0, [⟨.texture, .transientPool, 0⟩, ⟨.storageTexture, .permanentPool, 0⟩],
        [42], false, 8, 8⟩ =
      .ok ([Cmd.bufferBarrier .shaderRead .transferWrite,
            Cmd.updateBuffer [42],
            Cmd.bufferBarrier .transferWrite .shaderRead,
            Cmd.imageBarriers [⟨.shaderWrite, .shaderRead, 7⟩, ⟨.shaderRead, .shaderWrite, 9⟩],
            Cmd.pushDescriptors [⟨2, .sampledImage⟩, ⟨3, .storageImage⟩, ⟨0, .uniformBuffer⟩],
            Cmd.bindPipeline 0, Cmd.dispatchCompute 8 8],
           ⟨[⟨true, [⟨.texture, 0, 1⟩, ⟨.storageTexture, 0, 1⟩]⟩], ⟨0, 1, 2, 3⟩, 0, 0,
             [7], [9], fun _ => 0, [42]⟩) := rfl
  exact (dispatch_constant_buffer_upload _ _ _ _ h).1 ⟨rfl, rfl⟩

end VkDenoiseNrd
